import Mathlib

/-!
Verification of the Glacier-Slide-UI game core: the board model and tile
classification, the pure `slide` movement engine (both source copies: the
extracted board-logic module and the inline copy in `page.tsx`), and the
session state machine of `page.tsx` (level fetching with request-race
resolution, move, animation completion, reset, difficulty change), shallowly
embedded from the TypeScript source.
-/

/-- Structure `Point` from `types.ts`: an integer (column, row) pair. -/
structure Point where
  col : Int
  row : Int
deriving DecidableEq

/-- Structure `BoardConfig` from `types.ts`. The source field `end` is a Lean
keyword, so it is named `endPos` here. -/
structure BoardConfig where
  rows : Int
  cols : Int
  start : Point
  endPos : Point
  rocks : List Point
  grid : List String
deriving DecidableEq

/-- Type `Direction` from the board-logic module and `page.tsx`. -/
inductive Direction where
  | up
  | down
  | left
  | right
deriving DecidableEq

namespace BoardLogic

/-- Function `isRock` from the extracted board-logic module:
`config.rocks.some((p) => p.col === col && p.row === row)`. -/
def isRock (config : BoardConfig) (col row : Int) : Bool :=
  config.rocks.any (fun p => p.col == col && p.row == row)

/-- Function `inBounds` from the extracted board-logic module. -/
def inBounds (config : BoardConfig) (col row : Int) : Bool :=
  col >= 0 && row >= 0 && col < config.cols && row < config.rows

/-- Function `isWall` from the extracted board-logic module: on the outer
ring and neither `start` nor `end`. -/
def isWall (config : BoardConfig) (col row : Int) : Bool :=
  let isEdge :=
    row == 0 || col == 0 || row == config.rows - 1 || col == config.cols - 1
  let isStart := col == config.start.col && row == config.start.row
  let isEnd := col == config.endPos.col && row == config.endPos.row
  isEdge && !isStart && !isEnd

/-- Function `isBlocked` from the extracted board-logic module. -/
def isBlocked (config : BoardConfig) (col row : Int) : Bool :=
  !inBounds config col row || isRock config col row || isWall config col row

/-- Constant `DIRECTION_DELTA` from the extracted board-logic module. -/
def DIRECTION_DELTA : Direction → Int × Int
  | .up => (0, -1)
  | .down => (0, 1)
  | .left => (-1, 0)
  | .right => (1, 0)

theorem DIRECTION_DELTA_up : DIRECTION_DELTA .up = (0, -1) := rfl

theorem DIRECTION_DELTA_down : DIRECTION_DELTA .down = (0, 1) := rfl

theorem DIRECTION_DELTA_left : DIRECTION_DELTA .left = (-1, 0) := rfl

theorem DIRECTION_DELTA_right : DIRECTION_DELTA .right = (1, 0) := rfl

/-- Termination measure for the `while (true)` loop in `slide`: the number of
grid columns/rows remaining ahead of the walker in its direction of travel.
Each accepted loop iteration lands in bounds and strictly decreases it. -/
def slideMeasure (config : BoardConfig) (p : Point) (dir : Direction) : Nat :=
  match dir with
  | .right => (config.cols - p.col).toNat
  | .left => (p.col + 1).toNat
  | .down => (config.rows - p.row).toNat
  | .up => (p.row + 1).toNat

/-- An accepted loop iteration (next cell not blocked, hence in bounds)
strictly decreases `slideMeasure`. -/
theorem slideMeasure_lt (config : BoardConfig) (p : Point) (dir : Direction)
    (h : ¬ isBlocked config (p.col + (DIRECTION_DELTA dir).1)
      (p.row + (DIRECTION_DELTA dir).2) = true) :
    slideMeasure config
      ⟨p.col + (DIRECTION_DELTA dir).1, p.row + (DIRECTION_DELTA dir).2⟩ dir <
      slideMeasure config p dir := by
  rcases dir with _ | _ | _ | _ <;>
    simp only [DIRECTION_DELTA_up, DIRECTION_DELTA_down, DIRECTION_DELTA_left,
      DIRECTION_DELTA_right, slideMeasure, isBlocked, inBounds, isRock, isWall,
      Bool.or_eq_true, Bool.not_eq_true', Bool.and_eq_true, decide_eq_true_eq,
      not_or, Bool.not_eq_false, Bool.not_eq_true] at * <;>
    omega

/-- Function `slide` from the extracted board-logic module: step by the
direction's unit delta while the next tile is not blocked; return the last
position reached. -/
def slide (config : BoardConfig) (fromP : Point) (dir : Direction) : Point :=
  if isBlocked config (fromP.col + (DIRECTION_DELTA dir).1)
      (fromP.row + (DIRECTION_DELTA dir).2) then fromP
  else
    slide config
      ⟨fromP.col + (DIRECTION_DELTA dir).1, fromP.row + (DIRECTION_DELTA dir).2⟩
      dir
termination_by slideMeasure config fromP dir
decreasing_by
  rename_i h
  exact slideMeasure_lt config fromP dir h

/-- Loop-iteration count of `slide`: how many cells the walker advances. -/
def slideCount (config : BoardConfig) (fromP : Point) (dir : Direction) : Nat :=
  if isBlocked config (fromP.col + (DIRECTION_DELTA dir).1)
      (fromP.row + (DIRECTION_DELTA dir).2) then 0
  else
    1 + slideCount config
      ⟨fromP.col + (DIRECTION_DELTA dir).1, fromP.row + (DIRECTION_DELTA dir).2⟩
      dir
termination_by slideMeasure config fromP dir
decreasing_by
  rename_i h
  exact slideMeasure_lt config fromP dir h

/-- One iteration of the `slide` loop as a function on positions. -/
def stepPoint (dir : Direction) (p : Point) : Point :=
  ⟨p.col + (DIRECTION_DELTA dir).1, p.row + (DIRECTION_DELTA dir).2⟩

/-- The cell just past the result of `slide` is always blocked: the loop only
stops at the blocking guard. -/
theorem slide_next_blocked (config : BoardConfig) (p : Point) (dir : Direction) :
    isBlocked config ((slide config p dir).col + (DIRECTION_DELTA dir).1)
      ((slide config p dir).row + (DIRECTION_DELTA dir).2) = true := by
  induction p, dir using slide.induct config with
  | case1 p dir h =>
    rw [slide, if_pos h]
    exact h
  | case2 p dir h ih =>
    rw [slide, if_neg h]
    exact ih

/-- If the walker starts on a passable cell, every cell it occupies during the
slide, in particular the final one, is passable. -/
theorem slide_preserves_passable (config : BoardConfig) (p : Point)
    (dir : Direction) (h : isBlocked config p.col p.row = false) :
    isBlocked config (slide config p dir).col (slide config p dir).row = false := by
  induction p, dir using slide.induct config with
  | case1 p dir hb =>
    rw [slide, if_pos hb]
    exact h
  | case2 p dir hb ih =>
    rw [slide, if_neg hb]
    exact ih (Bool.not_eq_true _ ▸ hb)

/-- Relation between `slide` and `slideCount`: the result of `slide` is
reached by iterating the unit step `slideCount` times. -/
theorem slide_eq_iterate (config : BoardConfig) (p : Point) (dir : Direction) :
    slide config p dir = (stepPoint dir)^[slideCount config p dir] p := by
  induction p, dir using slide.induct config with
  | case1 p dir h =>
    rw [slide, if_pos h, slideCount, if_pos h, Function.iterate_zero_apply]
  | case2 p dir h ih =>
    rw [slide, if_neg h, slideCount, if_neg h, Nat.add_comm,
      Function.iterate_succ_apply]
    exact ih

/-- The loop-iteration count never exceeds the termination measure. -/
theorem slideCount_le_slideMeasure (config : BoardConfig) (p : Point)
    (dir : Direction) :
    slideCount config p dir ≤ slideMeasure config p dir := by
  induction p, dir using slide.induct config with
  | case1 p dir h =>
    rw [slideCount, if_pos h]
    exact Nat.zero_le _
  | case2 p dir h ih =>
    rw [slideCount, if_neg h]
    have := slideMeasure_lt config p dir h
    omega

/-- From an in-bounds cell, the termination measure is at most the larger
board dimension. -/
theorem slideMeasure_le_max (config : BoardConfig) (p : Point) (dir : Direction)
    (h : inBounds config p.col p.row = true) :
    slideMeasure config p dir ≤ (max config.rows config.cols).toNat := by
  have h1 : config.rows ≤ max config.rows config.cols := le_max_left _ _
  have h2 : config.cols ≤ max config.rows config.cols := le_max_right _ _
  rcases dir with _ | _ | _ | _ <;>
    simp only [slideMeasure, inBounds, Bool.and_eq_true, decide_eq_true_eq] at * <;>
    omega

end BoardLogic

namespace Page

/-- Function `isRock` as defined inline in `page.tsx`. -/
def isRock (config : BoardConfig) (col row : Int) : Bool :=
  config.rocks.any (fun p => p.col == col && p.row == row)

/-- Function `inBounds` as defined inline in `page.tsx`. -/
def inBounds (config : BoardConfig) (col row : Int) : Bool :=
  col >= 0 && row >= 0 && col < config.cols && row < config.rows

/-- Function `isWall` as defined inline in `page.tsx`. -/
def isWall (config : BoardConfig) (col row : Int) : Bool :=
  let isEdge :=
    row == 0 || col == 0 || row == config.rows - 1 || col == config.cols - 1
  let isStart := col == config.start.col && row == config.start.row
  let isEnd := col == config.endPos.col && row == config.endPos.row
  isEdge && !isStart && !isEnd

/-- The local `delta` record inside the `slide` of `page.tsx`. -/
def delta : Direction → Int × Int
  | .up => (0, -1)
  | .down => (0, 1)
  | .left => (-1, 0)
  | .right => (1, 0)

theorem delta_eq_DIRECTION_DELTA : delta = BoardLogic.DIRECTION_DELTA := by
  funext dir
  rcases dir with _ | _ | _ | _ <;> rfl

theorem inBounds_eq : inBounds = BoardLogic.inBounds := rfl

theorem isRock_eq : isRock = BoardLogic.isRock := rfl

theorem isWall_eq : isWall = BoardLogic.isWall := rfl

/-- Function `slide` as defined inline in `page.tsx`: the `while (true)` loop
with three separate `break` guards (out of bounds, rock, wall). -/
def slide (config : BoardConfig) (fromP : Point) (dir : Direction) : Point :=
  if !inBounds config (fromP.col + (delta dir).1) (fromP.row + (delta dir).2)
    then fromP
  else if isRock config (fromP.col + (delta dir).1) (fromP.row + (delta dir).2)
    then fromP
  else if isWall config (fromP.col + (delta dir).1) (fromP.row + (delta dir).2)
    then fromP
  else
    slide config ⟨fromP.col + (delta dir).1, fromP.row + (delta dir).2⟩ dir
termination_by BoardLogic.slideMeasure config fromP dir
decreasing_by
  rename_i h1 h2 h3
  refine BoardLogic.slideMeasure_lt config fromP dir ?_
  rw [delta_eq_DIRECTION_DELTA] at h1 h2 h3
  rw [inBounds_eq] at h1
  rw [isRock_eq] at h2
  rw [isWall_eq] at h3
  simp only [Bool.not_eq_true, Bool.not_eq_false] at h1 h2 h3
  simp [BoardLogic.isBlocked, h1, h2, h3]

end Page

/-- One unfolding of the `page.tsx` slide loop, with its three `break` guards
fused into the board-logic module's single `isBlocked` guard. -/
theorem page_slide_unfold (config : BoardConfig) (p : Point) (dir : Direction) :
    Page.slide config p dir =
      if BoardLogic.isBlocked config (p.col + (BoardLogic.DIRECTION_DELTA dir).1)
          (p.row + (BoardLogic.DIRECTION_DELTA dir).2) then p
      else
        Page.slide config
          ⟨p.col + (BoardLogic.DIRECTION_DELTA dir).1,
            p.row + (BoardLogic.DIRECTION_DELTA dir).2⟩ dir := by
  rw [Page.slide, Page.delta_eq_DIRECTION_DELTA, Page.inBounds_eq,
    Page.isRock_eq, Page.isWall_eq, BoardLogic.isBlocked]
  generalize BoardLogic.inBounds config (p.col + (BoardLogic.DIRECTION_DELTA dir).1)
    (p.row + (BoardLogic.DIRECTION_DELTA dir).2) = A
  generalize BoardLogic.isRock config (p.col + (BoardLogic.DIRECTION_DELTA dir).1)
    (p.row + (BoardLogic.DIRECTION_DELTA dir).2) = R
  generalize BoardLogic.isWall config (p.col + (BoardLogic.DIRECTION_DELTA dir).1)
    (p.row + (BoardLogic.DIRECTION_DELTA dir).2) = W
  cases A <;> cases R <;> cases W <;> simp

/-- The two `slide` implementations (inline in `page.tsx` and in the extracted
board-logic module) compute the same function. -/
theorem page_slide_agrees (config : BoardConfig) (p : Point) (dir : Direction) :
    Page.slide config p dir = BoardLogic.slide config p dir := by
  induction p, dir using BoardLogic.slide.induct config with
  | case1 p dir h =>
    rw [page_slide_unfold, if_pos h, BoardLogic.slide, if_pos h]
  | case2 p dir h ih =>
    rw [page_slide_unfold, if_neg h, BoardLogic.slide, if_neg h]
    exact ih

/-- Type `Difficulty` from `page.tsx`. -/
inductive Difficulty where
  | easy
  | medium
  | hard
  | extreme
deriving DecidableEq

/-- The React state of the `Page` component in `page.tsx`, gathered into one
record: the session state machine. `lastRequestId` models the
`useRef`-tracked most recent in-flight request id. -/
structure Session where
  difficulty : Difficulty
  level : Option BoardConfig
  loading : Bool
  error : Option String
  player : Point
  isAnimating : Bool
  won : Bool
  wins : Nat
  animDuration : ℚ
  lastRequestId : Nat
deriving DecidableEq

/-- The session created by the `useState` initializers in `page.tsx`. -/
def initialSession : Session where
  difficulty := .easy
  level := none
  loading := false
  error := none
  player := ⟨0, 0⟩
  isAnimating := false
  won := false
  wins := 0
  animDuration := 1 / 4
  lastRequestId := 0

/-- A level request dispatched to the backend: the captured request id
(`currentRequestId` in `fetchLevel`) and the difficulty in the URL. -/
structure LevelRequest where
  id : Nat
  difficulty : Difficulty
deriving DecidableEq

/-- The synchronous prefix of `fetchLevel` in `page.tsx`: allocate
`currentRequestId = ++lastRequestId.current`, set `loading`, clear `error`,
and dispatch the request. -/
def fetchLevelStart (s : Session) (d : Difficulty) : Session × LevelRequest :=
  ({ s with lastRequestId := s.lastRequestId + 1, loading := true, error := none },
   ⟨s.lastRequestId + 1, d⟩)

/-- The success continuation of `fetchLevel`: if the captured id is stale the
result is ignored, otherwise the board is installed, the player moves to its
start, `won` clears, and (in the `finally` clause) `loading` clears. -/
def completeSuccess (s : Session) (id : Nat) (board : BoardConfig) : Session :=
  if id ≠ s.lastRequestId then s
  else
    { s with
      level := some board
      player := ⟨board.start.col, board.start.row⟩
      won := false
      loading := false }

/-- The catch continuation of `fetchLevel`: a stale error is ignored,
otherwise the message is surfaced, the board cleared, and (in the `finally`
clause) `loading` clears. -/
def completeFailure (s : Session) (id : Nat) (msg : String) : Session :=
  if id ≠ s.lastRequestId then s
  else { s with error := some msg, level := none, loading := false }

/-- An asynchronous outcome of a dispatched level request. -/
inductive Outcome where
  | success (board : BoardConfig)
  | failure (msg : String)
deriving DecidableEq

/-- Delivery of a request outcome into the session. -/
def applyOutcome (s : Session) (id : Nat) (o : Outcome) : Session :=
  match o with
  | .success board => completeSuccess s id board
  | .failure msg => completeFailure s id msg

/-- Constant `BASE_TIME = 0.09` (seconds per tile) from `move` in
`page.tsx`, as an exact rational. -/
def BASE_TIME : ℚ := 9 / 100

/-- The animation-completion callback scheduled by `window.setTimeout` in
`move`: it captures the move's target, the board's end cell, and the computed
duration in seconds. -/
structure TimerEvent where
  target : Point
  endPos : Point
  durationSec : ℚ
deriving DecidableEq

/-- Function `move` from `page.tsx`. Returns the updated session and the
scheduled animation-completion callback, if any. -/
def move (s : Session) (dir : Direction) : Session × Option TimerEvent :=
  match s.level with
  | none => (s, none)
  | some currentLevel =>
    if s.isAnimating || s.won then (s, none)
    else
      let target := Page.slide currentLevel s.player dir
      if target.row = s.player.row ∧ target.col = s.player.col then (s, none)
      else
        let dx : Nat := (target.col - s.player.col).natAbs
        let dy : Nat := (target.row - s.player.row).natAbs
        let steps : Nat := dx + dy
        let SIZE_FACTOR : ℚ := ((max currentLevel.rows currentLevel.cols : Int) : ℚ) / 9
        let TIME_PER_TILE : ℚ := BASE_TIME / SIZE_FACTOR
        let durationSec : ℚ := ((max steps 1 : Nat) : ℚ) * TIME_PER_TILE
        ({ s with animDuration := durationSec, isAnimating := true, player := target },
         some ⟨target, currentLevel.endPos, durationSec⟩)

/-- The `setTimeout` callback body in `move`: clear `isAnimating`; if the
move's target is the board's end, set `won` and increment the win counter. -/
def onAnimationEnd (s : Session) (t : TimerEvent) : Session :=
  if t.target.col = t.endPos.col ∧ t.target.row = t.endPos.row then
    { s with isAnimating := false, won := true, wins := s.wins + 1 }
  else { s with isAnimating := false }

/-- Function `reset` from `page.tsx`. When `won`, it issues a fresh
`fetchLevel(difficulty)` (returned as a dispatched request); otherwise, with a
board loaded, it repositions the player to the board's start and clears
`won`; with no board it does nothing. -/
def reset (s : Session) : Session × Option LevelRequest :=
  if s.won then
    ((fetchLevelStart s s.difficulty).1, some (fetchLevelStart s s.difficulty).2)
  else
    match s.level with
    | none => (s, none)
    | some level => ({ s with player := ⟨level.start.col, level.start.row⟩, won := false }, none)

/-- Function `handleDifficultyChange` from `page.tsx`: ignore clicks on the
already-active difficulty while loading; otherwise set the difficulty and
fetch. -/
def handleDifficultyChange (s : Session) (d : Difficulty) : Session × Option LevelRequest :=
  if s.loading ∧ d = s.difficulty then (s, none)
  else
    let s1 : Session := { s with difficulty := d }
    ((fetchLevelStart s1 d).1, some (fetchLevelStart s1 d).2)

/-- A request outcome applied with a stale captured id is a no-op. -/
theorem applyOutcome_stale (s : Session) (id : Nat) (o : Outcome)
    (h : id ≠ s.lastRequestId) : applyOutcome s id o = s := by
  cases o <;> simp [applyOutcome, completeSuccess, completeFailure, h]

/-- Delivering a request outcome never changes the latest allocated id. -/
theorem applyOutcome_lastRequestId (s : Session) (id : Nat) (o : Outcome) :
    (applyOutcome s id o).lastRequestId = s.lastRequestId := by
  cases o <;> simp only [applyOutcome, completeSuccess, completeFailure] <;>
    split <;> rfl

/-- Delivering the latest request's outcome always clears `loading` (the
guarded `finally` clause of `fetchLevel`). -/
theorem applyOutcome_loading (s : Session) (id : Nat) (o : Outcome)
    (h : id = s.lastRequestId) : (applyOutcome s id o).loading = false := by
  cases o <;> simp [applyOutcome, completeSuccess, completeFailure, h]

/-- The 9×9 scenario board of the specification: start (1,1), end (7,7),
outer-ring walls only, no interior obstacles. -/
def board9 : BoardConfig :=
  { rows := 9, cols := 9, start := ⟨1, 1⟩, endPos := ⟨7, 7⟩, rocks := [], grid := [] }

/-- On `board9`, sliding right from (1,1) stops at (7,1): the next cell (8,1)
is an outer-ring wall. -/
theorem slide_board9_right : BoardLogic.slide board9 ⟨1, 1⟩ .right = ⟨7, 1⟩ := by
  iterate 7 rw [BoardLogic.slide]
  norm_num [BoardLogic.isBlocked, BoardLogic.inBounds, BoardLogic.isRock,
    BoardLogic.isWall, BoardLogic.DIRECTION_DELTA, board9]

/-- A ready session on `board9` with the player at the start. -/
def session9 : Session :=
  { difficulty := .easy, level := some board9, loading := false, error := none,
    player := ⟨1, 1⟩, isAnimating := false, won := false, wins := 0,
    animDuration := 1 / 4, lastRequestId := 1 }

/-- Full evaluation of `move` right on `session9`: the player reaches (7,1)
and the scheduled duration is 6 · 0.09 s = 27/50 s. -/
theorem move_session9_eval :
    move session9 .right =
      ({ session9 with animDuration := 27 / 50, isAnimating := true, player := ⟨7, 1⟩ },
       some ⟨⟨7, 1⟩, ⟨7, 7⟩, 27 / 50⟩) := by
  simp only [move, session9, page_slide_agrees, slide_board9_right]
  norm_num [BASE_TIME, session9]
  constructor
  · norm_num [board9]
  · norm_num [board9]

/-- A session waiting on request id 2 (one stale request id 1 outstanding). -/
def wSession : Session :=
  { difficulty := .easy, level := none, loading := true, error := none,
    player := ⟨0, 0⟩, isAnimating := false, won := false, wins := 0,
    animDuration := 1 / 4, lastRequestId := 2 }

/-- C1: a completion (success or failure) mutates the session iff its captured
request id equals the latest allocated id at completion time, and for two
requests R1 issued before R2, whatever the order in which their completions
arrive, the final session state is exactly the one produced by R2's outcome
alone — R1's outcome is discarded. -/
theorem fetchLevel_completion_race
    (s : Session) (id : Nat) (o : Outcome)
    (s0 : Session) (d1 d2 : Difficulty) (o1 o2 : Outcome) :
    (id ≠ s.lastRequestId → applyOutcome s id o = s) ∧
    (id = s.lastRequestId → s.loading = true → applyOutcome s id o ≠ s) ∧
    (applyOutcome
        (applyOutcome (fetchLevelStart (fetchLevelStart s0 d1).1 d2).1
          (fetchLevelStart s0 d1).2.id o1)
        (fetchLevelStart (fetchLevelStart s0 d1).1 d2).2.id o2 =
      applyOutcome (fetchLevelStart (fetchLevelStart s0 d1).1 d2).1
        (fetchLevelStart (fetchLevelStart s0 d1).1 d2).2.id o2) ∧
    (applyOutcome
        (applyOutcome (fetchLevelStart (fetchLevelStart s0 d1).1 d2).1
          (fetchLevelStart (fetchLevelStart s0 d1).1 d2).2.id o2)
        (fetchLevelStart s0 d1).2.id o1 =
      applyOutcome (fetchLevelStart (fetchLevelStart s0 d1).1 d2).1
        (fetchLevelStart (fetchLevelStart s0 d1).1 d2).2.id o2) := by
  refine ⟨applyOutcome_stale s id o, ?_, ?_, ?_⟩
  · intro heq hload hcontra
    have h2 := applyOutcome_loading s id o heq
    rw [hcontra] at h2
    rw [h2] at hload
    exact Bool.false_ne_true hload
  · rw [applyOutcome_stale _ _ o1 (by simp [fetchLevelStart])]
  · rw [applyOutcome_stale _ _ o1
      (by simp [fetchLevelStart, applyOutcome_lastRequestId])]

/-- Witness for C1: on a session whose latest id is 2, a completion captured
with id 1 is a no-op and a completion captured with id 2 mutates the state. -/
theorem fetchLevel_completion_race_witness :
    applyOutcome wSession 1 (Outcome.failure ("late")) = wSession ∧
    applyOutcome wSession 2 (Outcome.failure ("late")) ≠ wSession :=
  ⟨(fetchLevel_completion_race wSession 1 (Outcome.failure ("late")) wSession
      .easy .easy (Outcome.failure ("late")) (Outcome.failure ("late"))).1 (by decide),
   (fetchLevel_completion_race wSession 2 (Outcome.failure ("late")) wSession
      .easy .easy (Outcome.failure ("late")) (Outcome.failure ("late"))).2.1 rfl rfl⟩

/-- C2 counterexample: on the 9×9 board with start (1,1), end (7,7) and
outer-ring walls only, `move(right)` from (1,1) does reach (7,1), but the step
count |Δcol| + |Δrow| is 6, not 8, and the scheduled animation duration is
6 · (BASE_TIME / 1) = 27/50 s, not 8 · (BASE_TIME / 1): the claim is false. -/
theorem nine_board_move_right_counterexample :
    (move session9 .right).1.player = (⟨7, 1⟩ : Point) ∧
    ((move session9 .right).1.player.col - session9.player.col).natAbs +
        ((move session9 .right).1.player.row - session9.player.row).natAbs ≠ 8 ∧
    (move session9 .right).2.map TimerEvent.durationSec ≠ some (8 * (BASE_TIME / 1)) := by
  rw [move_session9_eval]
  refine ⟨rfl, by norm_num [session9], ?_⟩
  simp only [Option.map_some]
  intro hcontra
  have := Option.some.inj hcontra
  norm_num [BASE_TIME] at this

/-- C2 amended: on the 9×9 board with start (1,1), end (7,7) and outer-ring
walls only, `move(right)` from (1,1) moves the player to (7,1), the move
counts 6 steps (|Δcol| + |Δrow|), and the scheduled animation duration is
6 · (BASE_TIME / 1), where BASE_TIME = 0.09 s and the size factor
max(rows, cols)/9 is 1. -/
theorem nine_board_move_right_amended :
    (move session9 .right).1.player = (⟨7, 1⟩ : Point) ∧
    ((move session9 .right).1.player.col - session9.player.col).natAbs +
        ((move session9 .right).1.player.row - session9.player.row).natAbs = 6 ∧
    (move session9 .right).2.map TimerEvent.durationSec = some (6 * (BASE_TIME / 1)) := by
  rw [move_session9_eval]
  refine ⟨rfl, by norm_num [session9], ?_⟩
  simp only [Option.map_some]
  norm_num [BASE_TIME]

/-- C3: for every board whose start is in bounds, not a rock, and not
classified as a wall, and every direction, `slide` from the start returns a
position that is in bounds, not a wall, and not a rock. -/
theorem slide_from_start_stays_passable (config : BoardConfig) (dir : Direction)
    (h1 : BoardLogic.inBounds config config.start.col config.start.row = true)
    (h2 : BoardLogic.isRock config config.start.col config.start.row = false)
    (h3 : BoardLogic.isWall config config.start.col config.start.row = false) :
    BoardLogic.inBounds config (BoardLogic.slide config config.start dir).col
        (BoardLogic.slide config config.start dir).row = true ∧
    BoardLogic.isWall config (BoardLogic.slide config config.start dir).col
        (BoardLogic.slide config config.start dir).row = false ∧
    BoardLogic.isRock config (BoardLogic.slide config config.start dir).col
        (BoardLogic.slide config config.start dir).row = false := by
  have h : BoardLogic.isBlocked config config.start.col config.start.row = false := by
    simp [BoardLogic.isBlocked, h1, h2, h3]
  have h' := BoardLogic.slide_preserves_passable config config.start dir h
  simp only [BoardLogic.isBlocked, Bool.or_eq_false_iff, Bool.not_eq_false'] at h'
  exact ⟨h'.1.1, h'.2, h'.1.2⟩

/-- Witness for C3 on the concrete 9×9 board, sliding down from its start. -/
theorem slide_from_start_stays_passable_witness :
    BoardLogic.inBounds board9 (BoardLogic.slide board9 board9.start .down).col
        (BoardLogic.slide board9 board9.start .down).row = true ∧
    BoardLogic.isWall board9 (BoardLogic.slide board9 board9.start .down).col
        (BoardLogic.slide board9 board9.start .down).row = false ∧
    BoardLogic.isRock board9 (BoardLogic.slide board9 board9.start .down).col
        (BoardLogic.slide board9 board9.start .down).row = false :=
  slide_from_start_stays_passable board9 .down (by decide) (by decide) (by decide)

/-- C4: `slide` is idempotent — sliding again in the same direction from the
returned position returns that same position, for every board, position and
direction. -/
theorem slide_idempotent (config : BoardConfig) (p : Point) (dir : Direction) :
    BoardLogic.slide config (BoardLogic.slide config p dir) dir =
      BoardLogic.slide config p dir := by
  rw [BoardLogic.slide]
  rw [if_pos (BoardLogic.slide_next_blocked config p dir)]

/-- C5: on a board with positive dimensions, from any in-bounds start the
slide loop terminates: its result is the unit step iterated `slideCount`
times, the iteration count is at most max(rows, cols), and the loop stops
because the next cell is blocked. -/
theorem slide_terminates_within_bound (config : BoardConfig) (p : Point)
    (dir : Direction) (hrows : 0 < config.rows) (hcols : 0 < config.cols)
    (hin : BoardLogic.inBounds config p.col p.row = true) :
    BoardLogic.slide config p dir =
      (BoardLogic.stepPoint dir)^[BoardLogic.slideCount config p dir] p ∧
    BoardLogic.slideCount config p dir ≤ (max config.rows config.cols).toNat ∧
    BoardLogic.isBlocked config
      ((BoardLogic.slide config p dir).col + (BoardLogic.DIRECTION_DELTA dir).1)
      ((BoardLogic.slide config p dir).row + (BoardLogic.DIRECTION_DELTA dir).2) = true :=
  ⟨BoardLogic.slide_eq_iterate config p dir,
   le_trans (BoardLogic.slideCount_le_slideMeasure config p dir)
     (BoardLogic.slideMeasure_le_max config p dir hin),
   BoardLogic.slide_next_blocked config p dir⟩

/-- Witness for C5 on the concrete 9×9 board, sliding right from (1,1). -/
theorem slide_terminates_within_bound_witness :
    BoardLogic.slide board9 ⟨1, 1⟩ .right =
      (BoardLogic.stepPoint .right)^[BoardLogic.slideCount board9 ⟨1, 1⟩ .right] (⟨1, 1⟩ : Point) ∧
    BoardLogic.slideCount board9 ⟨1, 1⟩ .right ≤ (max board9.rows board9.cols).toNat ∧
    BoardLogic.isBlocked board9
      ((BoardLogic.slide board9 ⟨1, 1⟩ .right).col + (BoardLogic.DIRECTION_DELTA .right).1)
      ((BoardLogic.slide board9 ⟨1, 1⟩ .right).row + (BoardLogic.DIRECTION_DELTA .right).2) = true :=
  slide_terminates_within_bound board9 ⟨1, 1⟩ .right (by decide) (by decide) (by decide)

/-- C6: `move` is a complete no-op — state unchanged and no animation
scheduled — when no board is loaded, an animation is in flight, the game is
won, or the computed slide target equals the current player position. -/
theorem move_rejected_noop (s : Session) (dir : Direction)
    (h : s.level = none ∨ s.isAnimating = true ∨ s.won = true ∨
      (∃ b, s.level = some b ∧ Page.slide b s.player dir = s.player)) :
    move s dir = (s, none) := by
  rcases h with h | h | h | ⟨b, hb, ht⟩
  · simp [move, h]
  · cases hl : s.level with
    | none => simp [move, hl]
    | some b => simp [move, hl, h]
  · cases hl : s.level with
    | none => simp [move, hl]
    | some b => simp [move, hl, h]
  · simp [move, hb, ht]

/-- Witness for C6: a move on a won session changes nothing. -/
theorem move_rejected_noop_witness :
    move { session9 with won := true } .up = ({ session9 with won := true }, none) :=
  move_rejected_noop { session9 with won := true } .up (Or.inr (Or.inr (Or.inl rfl)))

/-- C7: `reset` on a won session issues a fresh level request for the active
difficulty (identical to the synchronous part of `fetchLevel(difficulty)`)
without repositioning the player; on an unfinished session with a board it
repositions the player to the board's start and clears `won`, keeping the
board; with no board and not won it changes nothing. -/
theorem reset_spec (s : Session) :
    (s.won = true →
      reset s = ((fetchLevelStart s s.difficulty).1, some (fetchLevelStart s s.difficulty).2) ∧
      (reset s).1.player = s.player ∧ (reset s).1.level = s.level) ∧
    (s.won = false → ∀ b, s.level = some b →
      reset s = ({ s with player := ⟨b.start.col, b.start.row⟩, won := false }, none)) ∧
    (s.won = false → s.level = none → reset s = (s, none)) := by
  refine ⟨?_, ?_, ?_⟩
  · intro h
    refine ⟨by simp [reset, h], ?_, ?_⟩ <;> simp [reset, h, fetchLevelStart]
  · intro h b hb
    simp [reset, h, hb]
  · intro h hb
    simp [reset, h, hb]

/-- Witness for C7: resetting a won session on `board9` re-dispatches a fetch
for the active difficulty. -/
theorem reset_spec_witness :
    reset { session9 with won := true } =
      ((fetchLevelStart { session9 with won := true }
          (Session.difficulty { session9 with won := true })).1,
        some (fetchLevelStart { session9 with won := true }
          (Session.difficulty { session9 with won := true })).2) :=
  ((reset_spec { session9 with won := true }).1 rfl).1

/-- C8: `isWall` holds exactly on outer-ring cells that are neither the start
nor the end; in particular a start or end on the ring is never a wall. -/
theorem isWall_ring_characterization (config : BoardConfig) (col row : Int) :
    (BoardLogic.isWall config col row = true ↔
      ((row = 0 ∨ col = 0 ∨ row = config.rows - 1 ∨ col = config.cols - 1) ∧
        ¬(col = config.start.col ∧ row = config.start.row) ∧
        ¬(col = config.endPos.col ∧ row = config.endPos.row))) ∧
    BoardLogic.isWall config config.start.col config.start.row = false ∧
    BoardLogic.isWall config config.endPos.col config.endPos.row = false := by
  refine ⟨?_, ?_, ?_⟩
  · simp [BoardLogic.isWall]
    tauto
  · simp [BoardLogic.isWall]
  · simp [BoardLogic.isWall]

/-- Witness for C8: the start of `board9` is not a wall. -/
theorem isWall_ring_characterization_witness :
    BoardLogic.isWall board9 board9.start.col board9.start.row = false :=
  (isWall_ring_characterization board9 0 0).2.1

/-- C9: a level-request failure whose captured id is still the latest records
the error message, clears the board, clears `loading`, and leaves the active
difficulty unchanged; a stale failure changes nothing. -/
theorem fetch_failure_spec (s : Session) (id : Nat) (msg : String) :
    (id = s.lastRequestId →
      completeFailure s id msg =
        { s with error := some msg, level := none, loading := false }) ∧
    (completeFailure s id msg).difficulty = s.difficulty ∧
    (id ≠ s.lastRequestId → completeFailure s id msg = s) := by
  refine ⟨?_, ?_, ?_⟩
  · intro h
    simp [completeFailure, h]
  · unfold completeFailure
    split <;> rfl
  · intro h
    simp [completeFailure, h]

/-- Witness for C9: on a session whose latest id is 2, a failure for id 2 is
recorded and a failure for id 1 is discarded. -/
theorem fetch_failure_spec_witness :
    completeFailure wSession 2 ("boom") =
      { wSession with error := some ("boom"), level := none, loading := false } ∧
    completeFailure wSession 1 ("boom") = wSession :=
  ⟨(fetch_failure_spec wSession 2 ("boom")).1 rfl,
   (fetch_failure_spec wSession 1 ("boom")).2.2 (by decide)⟩

/-- C10: the `slide` defined inline in `page.tsx` and the `slide` of the
extracted board-logic module compute the same function on every board,
position and direction. -/
theorem page_slide_eq_boardlogic_slide (config : BoardConfig) (p : Point)
    (dir : Direction) : Page.slide config p dir = BoardLogic.slide config p dir :=
  page_slide_agrees config p dir
